import Mathlib

/-!
Verification of the core logic of `src/app.py` (product-recommendation
dashboard).  The feedback ledger (`save_feedback`, `get_user_vote`), the
free-text identifier resolver (`extract_user_from_text`), the literal-list
decoder (`parse_list_string`) and the recommendation display loop of `main`
are shallowly embedded below; the persisted CSV file is modelled as
`Option (List FeedbackRow)` (`none` = file absent, `some rows` = file rows
in order).
-/

/-- One persisted row of `feedback.csv`: columns `MUDID`, `Product_ID`,
`Feedback` (app.py lines 51-55). -/
structure FeedbackRow where
  mudid : String
  product_id : Int
  feedback : Int
deriving DecidableEq, Repr

/-- The pandas mask `(feedback_df['MUDID'] == user_id) & (feedback_df['Product_ID'] == product_id)`
(app.py line 62), as a per-row boolean predicate. -/
def rowMatch (user_id : String) (product_id : Int) (r : FeedbackRow) : Bool :=
  r.mudid == user_id && r.product_id == product_id

/-- `save_feedback` (app.py lines 49-84).  The backing store is
`none` when `feedback.csv` does not exist (the `FileNotFoundError` branch).
The function returns the full table written back by `to_csv` (line 84), so
after a save the file always exists. -/
def save_feedback (store : Option (List FeedbackRow)) (user_id : String)
    (product_id : Int) (feedback : Int) : List FeedbackRow :=
  match store with
  | some feedback_df =>
    if feedback_df.any (rowMatch user_id product_id) then
      if feedback == 0 then
        feedback_df.filter (fun r => !(rowMatch user_id product_id r))
      else
        feedback_df.map (fun r =>
          if rowMatch user_id product_id r then { r with feedback := feedback } else r)
    else
      if feedback != 0 then
        feedback_df ++ [⟨user_id, product_id, feedback⟩]
      else
        feedback_df
  | none =>
    if feedback != 0 then [⟨user_id, product_id, feedback⟩] else []

/-- `get_user_vote` (app.py lines 86-95): the first row matching the mask
supplies the vote (`.iloc[0]`); no row, or a missing file, yields `0`. -/
def get_user_vote (store : Option (List FeedbackRow)) (user_id : String)
    (product_id : Int) : Int :=
  match store with
  | none => 0
  | some feedback_df =>
    match feedback_df.find? (rowMatch user_id product_id) with
    | some r => r.feedback
    | none => 0

/-- The thumbs-button toggle of `main` (app.py lines 319-351):
read the current vote, clear it when it already equals `direction`,
otherwise set it to `direction`. -/
def toggle_feedback (store : Option (List FeedbackRow)) (user_id : String)
    (product_id : Int) (direction : Int) : List FeedbackRow :=
  let current_vote := get_user_vote store user_id product_id
  save_feedback store user_id product_id
    (if current_vote == direction then 0 else direction)

/-- A sequence of `save_feedback` calls, each writing the file the next one
reads. -/
def run_ops (store : Option (List FeedbackRow)) :
    List (String × Int × Int) → Option (List FeedbackRow)
  | [] => store
  | op :: rest => run_ops (some (save_feedback store op.1 op.2.1 op.2.2)) rest

/-- At most one row per (user, product) pair. -/
def atMostOnePerPair (rows : List FeedbackRow) : Prop :=
  ∀ u p, rows.countP (rowMatch u p) ≤ 1

/-- The per-pair uniqueness invariant, with an absent file counted as an
empty (hence fine) store. -/
def storeInv : Option (List FeedbackRow) → Prop
  | none => True
  | some rows => atMostOnePerPair rows

/-- No persisted row carries `Feedback == 0`. -/
def noZeroRows (rows : List FeedbackRow) : Prop :=
  ∀ r ∈ rows, r.feedback ≠ 0

/-- The no-zero-rows invariant on an optional store. -/
def storeNoZero : Option (List FeedbackRow) → Prop
  | none => True
  | some rows => noZeroRows rows

theorem rowMatch_mk (u : String) (p : Int) (f : Int) :
    rowMatch u p ⟨u, p, f⟩ = true := by
  simp [rowMatch]

theorem rowMatch_set_feedback (u : String) (p : Int) (f : Int) (r : FeedbackRow) :
    rowMatch u p { r with feedback := f } = rowMatch u p r := by
  simp [rowMatch]

theorem find?_map_update (u : String) (p : Int) (f : Int) :
    ∀ rows : List FeedbackRow,
      (rows.map (fun r => if rowMatch u p r then { r with feedback := f } else r)).find?
          (rowMatch u p)
        = (rows.find? (rowMatch u p)).map
            (fun r => if rowMatch u p r then { r with feedback := f } else r)
  | [] => rfl
  | r :: rest => by
    by_cases h : rowMatch u p r = true
    · simp [List.find?, h, rowMatch_set_feedback]
    · simp only [List.map_cons, List.find?]
      rw [if_neg (by simp [h])]
      simp only [Bool.not_eq_true] at h
      simp [h, find?_map_update u p f rest]

theorem find?_append_of_none {α : Type} {q : α → Bool} :
    ∀ {l₁ : List α} (l₂ : List α), l₁.find? q = none →
      (l₁ ++ l₂).find? q = l₂.find? q
  | [], _, _ => rfl
  | a :: t, l₂, h => by
    simp only [List.find?] at h
    cases hq : q a with
    | true => simp [hq] at h
    | false =>
      simp only [List.cons_append, List.find?, hq]
      exact find?_append_of_none l₂ (by simpa [hq] using h)

theorem get_save_nonzero (store : Option (List FeedbackRow)) (u : String)
    (p : Int) (f : Int) (hf : f ≠ 0) :
    get_user_vote (some (save_feedback store u p f)) u p = f := by
  match store with
  | none =>
    have hne : (f != 0) = true := by simpa using hf
    simp [save_feedback, hne, get_user_vote, List.find?, rowMatch_mk]
  | some rows =>
    by_cases h : rows.any (rowMatch u p) = true
    · have hne : (f == 0) = false := by simpa using hf
      simp only [save_feedback, if_pos h, hne, Bool.false_eq_true, if_false]
      obtain ⟨r, hr⟩ : ∃ r, rows.find? (rowMatch u p) = some r := by
        rw [List.any_eq_true] at h
        obtain ⟨x, hx, hpx⟩ := h
        rcases ho : rows.find? (rowMatch u p) with _ | r
        · exact absurd (List.find?_eq_none.mp ho x hx) (by simp [hpx])
        · exact ⟨r, rfl⟩
      have hrm : rowMatch u p r = true := List.find?_some hr
      simp only [get_user_vote]
      rw [find?_map_update, hr]
      simp [hrm]
    · have hne : (f != 0) = true := by simpa using hf
      simp only [save_feedback, if_neg h, hne, if_true]
      have hnone : rows.find? (rowMatch u p) = none := by
        rw [List.find?_eq_none]
        intro x hx
        rw [List.any_eq_true] at h
        exact fun hpx => h ⟨x, hx, hpx⟩
      simp [get_user_vote, find?_append_of_none _ hnone, List.find?, rowMatch_mk]

theorem get_save_zero (store : Option (List FeedbackRow)) (u : String) (p : Int) :
    get_user_vote (some (save_feedback store u p 0)) u p = 0 := by
  match store with
  | none => simp [save_feedback, get_user_vote]
  | some rows =>
    by_cases h : rows.any (rowMatch u p) = true
    · simp only [save_feedback, if_pos h, beq_self_eq_true, if_true]
      have hnone : (rows.filter (fun r => !(rowMatch u p r))).find? (rowMatch u p) = none := by
        rw [List.find?_eq_none]
        intro x hx
        rw [List.mem_filter] at hx
        simpa using hx.2
      simp [get_user_vote, hnone]
    · simp only [save_feedback, if_pos rfl, if_neg h]
      have hnone : rows.find? (rowMatch u p) = none := by
        rw [List.find?_eq_none]
        intro x hx hpx
        exact h (List.any_eq_true.mpr ⟨x, hx, hpx⟩)
      simp [get_user_vote, hnone]

/-- C2: immediately after `save_feedback(user, product, 1)`,
`get_user_vote(user, product)` returns `1`; immediately after
`save_feedback(user, product, 0)` it returns `0` — for every starting store
state (absent file included). -/
theorem save_feedback_get_user_vote_round_trip
    (store : Option (List FeedbackRow)) (u : String) (p : Int) :
    get_user_vote (some (save_feedback store u p 1)) u p = 1 ∧
    get_user_vote (some (save_feedback store u p 0)) u p = 0 :=
  ⟨get_save_nonzero store u p 1 (by decide), get_save_zero store u p⟩

/-- C8: when the backing store file does not exist (`none`), `get_user_vote`
returns the no-vote value `0` for every user and product; the embedded
function is total, matching the `FileNotFoundError` handler that returns `0`
instead of raising. -/
theorem get_user_vote_absent_store (u : String) (p : Int) :
    get_user_vote none u p = 0 := rfl

theorem countP_filter_le {α : Type} (p q : α → Bool) :
    ∀ l : List α, (l.filter q).countP p ≤ l.countP p
  | [] => Nat.le_refl _
  | a :: t => by
    by_cases hq : q a = true
    · simp only [List.filter_cons, hq, if_true, List.countP_cons]
      exact Nat.add_le_add_right (countP_filter_le p q t) _
    · simp only [List.filter_cons, hq, Bool.false_eq_true, if_false, List.countP_cons]
      exact Nat.le_trans (countP_filter_le p q t) (Nat.le_add_right _ _)

theorem countP_map_update (u : String) (p : Int) (f : Int) (u2 : String) (p2 : Int) :
    ∀ rows : List FeedbackRow,
      (rows.map (fun r => if rowMatch u p r then { r with feedback := f } else r)).countP
          (rowMatch u2 p2)
        = rows.countP (rowMatch u2 p2)
  | [] => rfl
  | r :: rest => by
    have hsame : rowMatch u2 p2 (if rowMatch u p r then { r with feedback := f } else r)
        = rowMatch u2 p2 r := by
      by_cases h : rowMatch u p r = true
      · simp [h, rowMatch_set_feedback]
      · simp [h]
    simp only [List.map_cons, List.countP_cons, hsame,
      countP_map_update u p f u2 p2 rest]

theorem countP_eq_zero_of_any_false (u : String) (p : Int)
    (rows : List FeedbackRow) (h : rows.any (rowMatch u p) = false) :
    rows.countP (rowMatch u p) = 0 := by
  rw [List.countP_eq_zero]
  intro r hr hm
  have hcontra : rows.any (rowMatch u p) = true := List.any_eq_true.mpr ⟨r, hr, hm⟩
  rw [h] at hcontra
  exact Bool.false_ne_true hcontra

theorem rowMatch_mk_true_iff (u2 : String) (p2 : Int) (u : String) (p : Int) (f : Int) :
    rowMatch u2 p2 (⟨u, p, f⟩ : FeedbackRow) = true ↔ u = u2 ∧ p = p2 := by
  simp [rowMatch]

theorem atMostOne_save (store : Option (List FeedbackRow)) (u : String)
    (p f : Int) (h : storeInv store) :
    atMostOnePerPair (save_feedback store u p f) := by
  intro u2 p2
  match store with
  | none =>
    by_cases hf : (f != 0) = true
    · simp only [save_feedback, hf, if_true]
      exact Nat.le_trans (List.countP_le_length _) (by simp)
    · simp only [save_feedback, hf, if_false]
      simp
  | some rows =>
    have hrows : atMostOnePerPair rows := h
    by_cases ha : rows.any (rowMatch u p) = true
    · by_cases hf : (f == 0) = true
      · simp only [save_feedback, if_pos ha, hf, if_true]
        exact Nat.le_trans (countP_filter_le _ _ rows) (hrows u2 p2)
      · simp only [save_feedback, if_pos ha, hf, Bool.false_eq_true, if_false]
        rw [countP_map_update]
        exact hrows u2 p2
    · by_cases hf : (f != 0) = true
      · simp only [save_feedback, if_neg ha, hf, if_true]
        rw [List.countP_append]
        by_cases hm : rowMatch u2 p2 (⟨u, p, f⟩ : FeedbackRow) = true
        · obtain ⟨hu, hp⟩ := (rowMatch_mk_true_iff u2 p2 u p f).mp hm
          subst hu; subst hp
          rw [countP_eq_zero_of_any_false u p rows (by simpa using ha)]
          simp [List.countP_cons, hm]
        · have : ([(⟨u, p, f⟩ : FeedbackRow)]).countP (rowMatch u2 p2) = 0 := by
            simp [List.countP_cons, hm]
          rw [this]
          simpa using hrows u2 p2
      · simp only [save_feedback, if_neg ha, hf, if_false]
        exact hrows u2 p2

theorem storeInv_run_ops :
    ∀ (ops : List (String × Int × Int)) (store : Option (List FeedbackRow)),
      storeInv store → storeInv (run_ops store ops)
  | [], _, h => h
  | op :: rest, store, h =>
    storeInv_run_ops rest (some (save_feedback store op.1 op.2.1 op.2.2))
      (atMostOne_save store op.1 op.2.1 op.2.2 h)

/-- C1: starting from an absent backing store or one with at most one row
per (user, product) pair, any sequence of `save_feedback` calls (the toggle
paths of `main` are `save_feedback` calls with a computed third argument)
leaves at most one row per (user, product) pair: a vote change overwrites
the matching row in place instead of appending a second one. -/
theorem save_feedback_at_most_one_row (store : Option (List FeedbackRow))
    (ops : List (String × Int × Int)) (h : storeInv store) :
    storeInv (run_ops store ops) :=
  storeInv_run_ops ops store h

theorem save_feedback_at_most_one_row_witness :
    storeInv (none : Option (List FeedbackRow)) ∧
    storeInv (run_ops none
      [("ai730048", 152415, 1), ("ai730048", 152415, -1), ("ai730048", 152415, 0)]) :=
  ⟨trivial, save_feedback_at_most_one_row none
    [("ai730048", 152415, 1), ("ai730048", 152415, -1), ("ai730048", 152415, 0)] trivial⟩

theorem noZero_save (store : Option (List FeedbackRow)) (u : String)
    (p f : Int) (h : storeNoZero store) :
    noZeroRows (save_feedback store u p f) := by
  intro r hr
  match store with
  | none =>
    by_cases hf : (f != 0) = true
    · simp only [save_feedback, hf, if_true, List.mem_singleton] at hr
      subst hr
      simpa using hf
    · simp only [save_feedback, hf, Bool.false_eq_true, if_false, List.not_mem_nil] at hr
  | some rows =>
    have hrows : noZeroRows rows := h
    by_cases ha : rows.any (rowMatch u p) = true
    · by_cases hf : (f == 0) = true
      · simp only [save_feedback, if_pos ha, hf, if_true, List.mem_filter] at hr
        exact hrows r hr.1
      · simp only [save_feedback, if_pos ha, hf, Bool.false_eq_true, if_false,
          List.mem_map] at hr
        obtain ⟨a, ha2, hr2⟩ := hr
        by_cases hm : rowMatch u p a = true
        · rw [if_pos hm] at hr2
          subst hr2
          simpa using hf
        · rw [if_neg hm] at hr2
          subst hr2
          exact hrows a ha2
    · by_cases hf : (f != 0) = true
      · simp only [save_feedback, if_neg ha, hf, if_true, List.mem_append,
          List.mem_singleton] at hr
        rcases hr with hr | hr
        · exact hrows r hr
        · subst hr
          simpa using hf
      · simp only [save_feedback, if_neg ha, hf, if_false] at hr
        exact hrows r hr

theorem storeNoZero_run_ops :
    ∀ (ops : List (String × Int × Int)) (store : Option (List FeedbackRow)),
      storeNoZero store → storeNoZero (run_ops store ops)
  | [], _, h => h
  | op :: rest, store, h =>
    storeNoZero_run_ops rest (some (save_feedback store op.1 op.2.1 op.2.2))
      (noZero_save store op.1 op.2.1 op.2.2 h)

/-- C7: starting from an absent store or one containing no zero votes,
no sequence of `save_feedback` calls ever leaves a row with `Feedback == 0`:
clearing a vote deletes the matching rows and appends nothing. -/
theorem save_feedback_never_persists_zero (store : Option (List FeedbackRow))
    (ops : List (String × Int × Int)) (h : storeNoZero store) :
    storeNoZero (run_ops store ops) :=
  storeNoZero_run_ops ops store h

theorem save_feedback_never_persists_zero_witness :
    storeNoZero (none : Option (List FeedbackRow)) ∧
    storeNoZero (run_ops none
      [("ai730048", 152415, 1), ("ai730048", 152415, 0), ("bx441092", 101115, -1)]) :=
  ⟨trivial, save_feedback_never_persists_zero none
    [("ai730048", 152415, 1), ("ai730048", 152415, 0), ("bx441092", 101115, -1)] trivial⟩

/-- C3 counterexample: when the pair already carries a Like vote, toggling
Like twice does NOT end at the no-vote state — the first toggle clears the
row and the second one re-creates the Like, so `get_user_vote` returns `1`,
refuting the claim that a double toggle always leaves `None`. -/
theorem toggle_twice_from_like_not_none :
    get_user_vote
      (some (toggle_feedback
        (some (toggle_feedback (some [⟨"ai730048", 152415, 1⟩]) "ai730048" 152415 1))
        "ai730048" 152415 1))
      "ai730048" 152415 = 1 := by decide

/-- C3 (amended): toggling Like twice in a row leaves
`get_user_vote(user, product) == None (0)` whenever the pair's current vote
is not already Like; when the current vote is already Like, the two toggles
cancel out and restore the Like vote instead. -/
theorem toggle_twice_clears_when_not_like (store : Option (List FeedbackRow))
    (u : String) (p : Int) :
    (get_user_vote store u p ≠ 1 →
      get_user_vote
        (some (toggle_feedback (some (toggle_feedback store u p 1)) u p 1)) u p = 0) ∧
    (get_user_vote store u p = 1 →
      get_user_vote
        (some (toggle_feedback (some (toggle_feedback store u p 1)) u p 1)) u p = 1) := by
  constructor
  · intro h
    have hb : (get_user_vote store u p == 1) = false := by simpa using h
    have h1 : toggle_feedback store u p 1 = save_feedback store u p 1 := by
      simp [toggle_feedback, hb]
    rw [h1]
    have h2 : get_user_vote (some (save_feedback store u p 1)) u p = 1 :=
      get_save_nonzero store u p 1 (by decide)
    simp only [toggle_feedback]
    rw [h2]
    simpa using get_save_zero (some (save_feedback store u p 1)) u p
  · intro h
    have h1 : toggle_feedback store u p 1 = save_feedback store u p 0 := by
      simp [toggle_feedback, h]
    rw [h1]
    have h2 : get_user_vote (some (save_feedback store u p 0)) u p = 0 :=
      get_save_zero store u p
    simp only [toggle_feedback]
    rw [h2]
    simpa using get_save_nonzero (some (save_feedback store u p 0)) u p 1 (by decide)

theorem toggle_twice_clears_when_not_like_witness :
    get_user_vote (none : Option (List FeedbackRow)) "ai730048" 152415 ≠ 1 ∧
    get_user_vote
      (some (toggle_feedback (some (toggle_feedback none "ai730048" 152415 1))
        "ai730048" 152415 1)) "ai730048" 152415 = 0 :=
  ⟨by decide,
    (toggle_twice_clears_when_not_like none "ai730048" 152415).1 (by decide)⟩

/-- Whitespace characters removed by Python `str.strip()`. -/
def pyWs (c : Char) : Bool :=
  c == ' ' || c == '\t' || c == '\n' || c == '\r' || c == '\x0b' || c == '\x0c'

/-- Python `str.strip()`: drop leading and trailing whitespace. -/
def pyStrip (s : String) : String :=
  ⟨(((s.toList.dropWhile pyWs).reverse.dropWhile pyWs).reverse)⟩

/-- Python `str.lower()` (ASCII case folding, which covers the catalog ids
and queries the program handles). -/
def pyLower (s : String) : String :=
  ⟨s.toList.map Char.toLower⟩

/-- Python substring containment `needle in haystack` over character lists. -/
def segIn : List Char → List Char → Bool
  | needle, [] => needle.isEmpty
  | needle, c :: rest =>
    needle.isPrefixOf (c :: rest) || segIn needle rest

/-- String form of `needle in haystack`. -/
def strIn (needle haystack : String) : Bool :=
  segIn needle.toList haystack.toList

/-- The partial-match loop of `extract_user_from_text` (app.py lines 109-116):
some 4-character window `user_str[i:i+4]` of the lowercased id occurs in the
text, the id being at least 4 characters long. -/
def hasWindowMatch (user_str : String) (text_lower : String) : Bool :=
  if user_str.length ≥ 4 then
    (List.range (user_str.length - 3)).any (fun i =>
      segIn ((user_str.toList.drop i).take 4) text_lower.toList)
  else
    false

/-- The fixed request-intent keywords (app.py lines 119-121). -/
def intent_patterns : List String :=
  ["recommend", "suggestion", "show", "get", "find", "what", "give me"]

/-- The fixed intent-without-identifier reply (app.py line 124). -/
def intent_message : String :=
  "I understand you want recommendations, but I need a user ID. Try including a user ID in your request or use the dropdown below."

/-- The not-found reply (app.py lines 127-131): the first three catalog ids,
comma-joined, with an ellipsis when more exist. -/
def not_found_message (available_users : List String) : String :=
  let available_sample := String.intercalate ", " (available_users.take 3)
  let available_sample :=
    if available_users.length > 3 then available_sample ++ "..." else available_sample
  "I couldn\x27t find a matching user ID in your request. Available users: " ++ available_sample

/-- `extract_user_from_text` (app.py lines 97-131): blank input short-circuits
to `(None, None)`; then exact lowercase substring containment, then the
4-character-window partial match, then the intent keywords, then not-found. -/
def extract_user_from_text (text_input : String) (available_users : List String) :
    Option String × Option String :=
  if pyStrip text_input = "" then
    (none, none)
  else
    let text_lower := pyStrip (pyLower text_input)
    match available_users.find? (fun user => strIn (pyLower user) text_lower) with
    | some user => (some user, some ("Found user ID: " ++ user))
    | none =>
      match available_users.find? (fun user => hasWindowMatch (pyLower user) text_lower) with
      | some user => (some user, some ("Matched partial ID: " ++ user))
      | none =>
        if intent_patterns.any (fun pattern => strIn pattern text_lower) then
          (none, some intent_message)
        else
          (none, some (not_found_message available_users))

/-- C6: the resolver checks case-insensitive exact substring containment
before the 4-character-window partial match — whenever any catalog id
matches exactly, the first such id (in catalog order) is returned with the
exact-match message, regardless of partial matches; and on catalog
`["ai730048"]` with text `"show me ai73"` no exact match fires and the
partial window resolves to `"ai730048"`. -/
theorem exact_match_precedes_partial :
    (∀ (available_users : List String) (text : String) (u : String),
        pyStrip text ≠ "" →
        available_users.find?
            (fun user => strIn (pyLower user) (pyStrip (pyLower text))) = some u →
        extract_user_from_text text available_users
          = (some u, some ("Found user ID: " ++ u))) ∧
    (["ai730048"].find?
        (fun user => strIn (pyLower user) (pyStrip (pyLower "show me ai73"))) = none ∧
      extract_user_from_text "show me ai73" ["ai730048"]
        = (some "ai730048", some "Matched partial ID: ai730048")) := by
  constructor
  · intro available_users text u hne hfind
    simp [extract_user_from_text, hne, hfind]
  · exact ⟨by decide, by decide⟩

theorem exact_match_precedes_partial_witness :
    pyStrip "recommend for ai730048 please" ≠ "" ∧
    extract_user_from_text "recommend for ai730048 please" ["ai730048", "bx441092"]
      = (some "ai730048", some "Found user ID: ai730048") :=
  ⟨by decide,
    exact_match_precedes_partial.1 ["ai730048", "bx441092"]
      "recommend for ai730048 please" "ai730048" (by decide) (by decide)⟩

/-- C5 counterexample: on text `"recommend something"` (which contains the
intent keyword `"recommend"` and matches no catalog id of the nonempty
catalog `["ai730048"]`), the resolver answers with the fixed intent reply,
and that reply does NOT contain the catalog id — so the claim that the
Ambiguous message includes up to 3 sample catalog ids is false. -/
theorem intent_reply_lacks_sample_ids :
    extract_user_from_text "recommend something" ["ai730048"]
      = (none, some intent_message) ∧
    strIn "ai730048" intent_message = false :=
  ⟨by decide, by decide⟩

/-- C5 (amended): for every non-blank text that contains one of the fixed
request-intent keywords but matches no catalog id exactly or by 4-character
window, the resolver returns no user together with the fixed prompt asking
for a user ID; the prompt does not embed sample catalog ids — those appear
only in the no-intent not-found message. -/
theorem intent_without_identifier_fixed_prompt
    (text : String) (available_users : List String)
    (hne : pyStrip text ≠ "")
    (hex : available_users.find?
        (fun user => strIn (pyLower user) (pyStrip (pyLower text))) = none)
    (hpart : available_users.find?
        (fun user => hasWindowMatch (pyLower user) (pyStrip (pyLower text))) = none)
    (hint : intent_patterns.any
        (fun pattern => strIn pattern (pyStrip (pyLower text))) = true) :
    extract_user_from_text text available_users = (none, some intent_message) := by
  simp [extract_user_from_text, hne, hex, hpart, hint]

theorem intent_without_identifier_fixed_prompt_witness :
    pyStrip "please recommend something" ≠ "" ∧
    extract_user_from_text "please recommend something" ["ai730048"]
      = (none, some intent_message) :=
  ⟨by decide,
    intent_without_identifier_fixed_prompt "please recommend something" ["ai730048"]
      (by decide) (by decide) (by decide) (by decide)⟩

/-- C10: for every catalog, an input that is empty or whitespace-only makes
the resolver return `(None, None)` — no user and no message — while every
non-blank input always gets some message, so blank input is silently
distinct from the NotFound and Ambiguous outcomes. -/
theorem extract_user_blank_input_silent :
    (∀ (text : String) (available_users : List String),
        pyStrip text = "" →
        extract_user_from_text text available_users = (none, none)) ∧
    (∀ (text : String) (available_users : List String),
        pyStrip text ≠ "" →
        (extract_user_from_text text available_users).2.isSome = true) := by
  constructor
  · intro text available_users h
    simp [extract_user_from_text, h]
  · intro text available_users h
    simp only [extract_user_from_text]
    rw [if_neg h]
    cases hx : available_users.find?
        (fun user => strIn (pyLower user) (pyStrip (pyLower text))) with
    | some u => simp [hx]
    | none =>
      cases hp : available_users.find?
          (fun user => hasWindowMatch (pyLower user) (pyStrip (pyLower text))) with
      | some u => simp [hx, hp]
      | none =>
        by_cases hi : intent_patterns.any
            (fun pattern => strIn pattern (pyStrip (pyLower text))) = true
        · simp [hx, hp, hi]
        · simp [hx, hp, hi]

theorem extract_user_blank_input_silent_witness :
    extract_user_from_text "   " ["ai730048"] = (none, none) ∧
    (extract_user_from_text "hello there zzz" ["ai730048"]).2.isSome = true :=
  ⟨extract_user_blank_input_silent.1 "   " ["ai730048"] (by decide),
   extract_user_blank_input_silent.2 "hello there zzz" ["ai730048"] (by decide)⟩

/-- A Python literal value of the fragment the program serializes: integers,
decimal floats (here exact rationals) and nested lists.  This is the value
domain of `ast.literal_eval` as used on the `Recommended_Product`,
`Final_Score`, `RF_Score` and `CF_Score` columns. -/
inductive PyLit where
  | int : Int → PyLit
  | float : Rat → PyLit
  | list : List PyLit → PyLit

/-- Natural number denoted by a digit run. -/
def natOfDigits (ds : List Char) : Nat :=
  ds.foldl (fun n c => n * 10 + (c.toNat - '0'.toNat)) 0

/-- Parse an optionally signed integer or decimal-float literal, returning
the value and the unconsumed input. -/
def parseNum (cs : List Char) : Option (PyLit × List Char) :=
  let signed : Bool × List Char :=
    match cs with
    | '-' :: rest => (true, rest)
    | _ => (false, cs)
  let ds := signed.2.takeWhile Char.isDigit
  let cs2 := signed.2.dropWhile Char.isDigit
  if ds.isEmpty then none
  else
    match cs2 with
    | '.' :: cs3 =>
      let fs := cs3.takeWhile Char.isDigit
      let cs4 := cs3.dropWhile Char.isDigit
      let q : Rat := (natOfDigits ds : Rat) + (natOfDigits fs : Rat) / ((10 : Rat) ^ fs.length)
      some (.float (if signed.1 then -q else q), cs4)
    | _ =>
      let n : Int := Int.ofNat (natOfDigits ds)
      some (.int (if signed.1 then -n else n), cs2)

/-- Skip spaces between tokens. -/
def skipWs : List Char → List Char
  | c :: cs => if pyWs c then skipWs cs else c :: cs
  | [] => []

mutual

/-- Parse one literal value (number or bracketed list), fuel-bounded. -/
def parseVal : Nat → List Char → Option (PyLit × List Char)
  | 0, _ => none
  | Nat.succ fuel, cs =>
    match skipWs cs with
    | '[' :: rest =>
      match parseElems fuel rest with
      | some (xs, rest2) => some (.list xs, rest2)
      | none => none
    | cs2 => parseNum cs2

/-- Parse the element tail of a bracketed list up to and including the
closing bracket (a trailing comma before the bracket is allowed, as in
Python). -/
def parseElems : Nat → List Char → Option (List PyLit × List Char)
  | 0, _ => none
  | Nat.succ fuel, cs =>
    match skipWs cs with
    | ']' :: rest => some ([], rest)
    | cs2 =>
      match parseVal fuel cs2 with
      | some (v, rest) =>
        match skipWs rest with
        | ',' :: rest2 =>
          match parseElems fuel rest2 with
          | some (xs, rest3) => some (v :: xs, rest3)
          | none => none
        | ']' :: rest2 => some ([v], rest2)
        | _ => none
      | none => none

end

/-- `ast.literal_eval` on the numeric-list literal fragment the program
stores: the whole string must be one literal, anything else fails
(`none` stands for the raised `ValueError`/`SyntaxError`). -/
def literal_eval (s : String) : Option PyLit :=
  match parseVal (s.length + 1) s.toList with
  | some (v, rest) => if (skipWs rest).isEmpty then some v else none
  | none => none

/-- `parse_list_string` (app.py lines 42-47): `ast.literal_eval` wrapped in
`try/except` — any decoding failure is caught and yields `[]`. -/
def parse_list_string (list_str : String) : PyLit :=
  match literal_eval list_str with
  | some v => v
  | none => .list []

/-- C9: `parse_list_string` is total and fail-soft: for every input string it
either returns the decoded literal (when `ast.literal_eval` succeeds) or the
empty list (when decoding fails); being a total Lean function, it never
propagates an exception.  The two concrete conjuncts exhibit each branch. -/
theorem parse_list_string_total_fail_soft :
    (∀ s : String,
        (∃ v, literal_eval s = some v ∧ parse_list_string s = v) ∨
        (literal_eval s = none ∧ parse_list_string s = .list [])) ∧
    parse_list_string "[1, 2, 3]" = .list [.int 1, .int 2, .int 3] ∧
    parse_list_string "not a list" = .list [] := by
  refine ⟨fun s => ?_, rfl, rfl⟩
  cases h : literal_eval s with
  | some v => exact Or.inl ⟨v, rfl, by simp [parse_list_string, h]⟩
  | none => exact Or.inr ⟨rfl, by simp [parse_list_string, h]⟩

/-- The recommendation display loop of `main` (app.py lines 295-313):
for every index `i` below `len(recommended_products)` it reads
`final_scores[i]`, `rf_scores[i]` and `cf_scores[i]`; an out-of-range index
raises `IndexError`, modelled as `none` for the whole view. -/
def display_rows (recommended_products : List Int)
    (final_scores rf_scores cf_scores : List Rat) :
    Option (List (Int × Rat × Rat × Rat)) :=
  recommended_products.enum.mapM (fun ip => do
    let f ← final_scores[ip.1]?
    let r ← rf_scores[ip.1]?
    let c ← cf_scores[ip.1]?
    pure (ip.2, f, r, c))

/-- Modelled from the spec: the display view the specification prescribes,
indexing only up to the minimum of all field lengths so that products beyond
the effective length are excluded (`zip` truncates to the shortest input). -/
def display_rows_spec (recommended_products : List Int)
    (final_scores rf_scores cf_scores : List Rat) :
    List (Int × Rat × Rat × Rat) :=
  recommended_products.zip (final_scores.zip (rf_scores.zip cf_scores))

/-- C4: at the spec's own example — `Recommended_Product` decoding to three
products while `Final_Score` decodes to only two entries — the display loop
of `main` indexes `final_scores[2]` out of range and raises `IndexError`
(modelled as `none`), instead of clamping to the effective length 2; the
view the spec prescribes would drop product 3 and show the first two rows.
The third conjunct records that the same loop is fine when all fields have
the product list's length. -/
theorem display_rows_index_error_on_short_scores :
    display_rows [1, 2, 3] [(9:Rat)/10, 1/2] [0, 0, 0] [0, 0, 0] = none ∧
    display_rows_spec [1, 2, 3] [(9:Rat)/10, 1/2] [0, 0, 0] [0, 0, 0]
      = [(1, (9:Rat)/10, 0, 0), (2, 1/2, 0, 0)] ∧
    display_rows [1, 2] [(9:Rat)/10, 1/2] [0, 0] [0, 0]
      = some [(1, (9:Rat)/10, 0, 0), (2, 1/2, 0, 0)] :=
  ⟨rfl, rfl, rfl⟩
